import Mathlib

/-!
Verification of the Bill-Scan-Bot Telegram dispatcher
(`lib/telegram-handlers.ts`, `lib/telegram-users.ts`, `lib/receipt-storage.ts`,
`lib/auth.ts`, schema in `lib/database.ts`).

The TypeScript sources are shallowly embedded: SQLite tables become lists in
an explicit `DB` state, handlers become pure functions from a message and a
`DB` to an updated `DB` plus a trace of outbound effects, and the two
external calls of the photo/text paths (Telegram `getFile` and the Gemini
bridge together with `JSON.parse` of its raw text) are passed in as explicit
parameters, since their results are produced outside the repository.
Machine numbers of the store (SQLite `REAL` totals) are modelled as `ℚ`.
-/

/-! ### JavaScript string primitives used by the handlers -/

/-- JS `s.startsWith(p)` on char lists: `strHasPre s p` is true iff `p` is a
literal (case-sensitive) prefix of `s`. -/
def strHasPre : List Char → List Char → Bool
  | _, [] => true
  | [], _ :: _ => false
  | c :: cs, p :: ps => c = p && strHasPre cs ps

/-- JS `String.prototype.startsWith`, case-sensitive. -/
def jsStartsWith (s p : String) : Bool :=
  strHasPre s.data p.data

/-- The JS regex class `\s` (ECMAScript WhiteSpace ∪ LineTerminator): tab,
LF, VT, FF, CR, space, NBSP, BOM, the line/paragraph separators, and the
Unicode Zs space separators (U+1680, U+2000–U+200A, U+202F, U+205F,
U+3000). All are BMP scalars, so code-unit and scalar views agree. -/
def isWs (c : Char) : Bool :=
  c = ' ' || c = '\t' || c = '\n' || c = '\x0b' || c = '\x0c' ||
  c = '\r' || c = '\u00a0' || c = '\u1680' ||
  ('\u2000' ≤ c && c ≤ '\u200a') ||
  c = '\u2028' || c = '\u2029' || c = '\u202f' || c = '\u205f' ||
  c = '\u3000' || c = '\ufeff'

/-- One step of `jsSplitWs` on the already-split tail `r`: a whitespace
character closes the token to its right unless the next character is
whitespace too (a maximal run is one separator); a non-blank character is
prepended to the first token. -/
def splitWsStep (c : Char) (rest : List Char) (r : List String) :
    List String :=
  if isWs c then
    match rest with
    | [] => "" :: r
    | c2 :: _ => if isWs c2 then r else "" :: r
  else
    match r with
    | [] => [String.mk [c]]
    | h :: t => String.mk (c :: h.data) :: t

/-- Helper for `jsSplitWs`, structurally recursive from the right. -/
def splitWsGo : List Char → List String
  | [] => [""]
  | c :: rest => splitWsStep c rest (splitWsGo rest)

/-- JS `text.split(/\s+/)`: splits at maximal whitespace runs; a leading
(resp. trailing) whitespace run contributes a leading (resp. trailing)
empty-string element, and `"".split` gives `[""]`. -/
def jsSplitWs (s : String) : List String :=
  splitWsGo s.data

/-- A hexadecimal digit as accepted by the `/receipt` pattern
`[a-f0-9]` under the `i` flag (so `A`–`F` as well). -/
def isHexDigit (c : Char) : Bool :=
  ('0' ≤ c && c ≤ '9') || ('a' ≤ c && c ≤ 'f') || ('A' ≤ c && c ≤ 'F')

/-- Case-insensitive literal strip: `stripCI pat s` removes `pat` (given in
lowercase) from the front of `s`, comparing via `Char.toLower`, and returns
the remainder. Models the `i` flag on the literal part of the regex. -/
def stripCI : List Char → List Char → Option (List Char)
  | [], rest => some rest
  | _ :: _, [] => none
  | p :: ps, c :: cs => if c.toLower = p then stripCI ps cs else none

/-- The capture of `text.match(/^\/receipt[_]?([a-f0-9]+)/i)`: after a
case-insensitive `/receipt`, an optional underscore, then a maximal nonempty
run of hex digits (either case), returned in original case. The optional
`[_]?` only backtracks when the following character is not a hex digit, in
which case `_` itself is not one either, so the whole match fails: consuming
a leading underscore greedily is exact. -/
def receiptCapture (t : String) : Option String :=
  match stripCI "/receipt".data t.data with
  | none => none
  | some rest =>
    let rest2 := match rest with
      | '_' :: tl => tl
      | _ => rest
    let run := rest2.takeWhile isHexDigit
    if run = [] then none else some (String.mk run)

/-! ### Telegram message shape (`TgMessage` of `lib/telegram-bot.ts`) -/

structure TgPhotoSize where
  file_id : String
  file_unique_id : String
  width : Nat
  height : Nat
  file_size : Option Nat
deriving Repr, DecidableEq

structure TgFrom where
  id : Int
  first_name : String
  last_name : Option String
  username : Option String
deriving Repr, DecidableEq

structure TgMessage where
  message_id : Nat
  /-- the source field `from` (a Lean keyword) -/
  sender : Option TgFrom
  /-- `chat.id` (only the id of the chat object is ever read) -/
  chat_id : Int
  date : Nat
  text : Option String
  /-- an absent `photo` field is modelled as `[]`: every use in the source
  (`photo && photo.length > 0`, indexing the last element) treats the two
  identically -/
  photo : List TgPhotoSize
  caption : Option String
deriving Repr, DecidableEq

/-- `msg.text || ''` as evaluated at the top of `handleMessage`. -/
def jsText (msg : TgMessage) : String := msg.text.getD ""

/-! ### Message classification (`handleMessage`, lines 287–312) -/

/-- The routing outcome of `handleMessage`: which handler the dispatcher
selects for a message (or that it sends the unknown-command reply, or
nothing at all). -/
inductive MsgClass where
  | start
  | setkey
  | stats
  | history
  | delete
  | help
  | receiptDetail (idPfx : String)
  | photo
  | textReceipt
  | unknown
  | ignore
deriving Repr, DecidableEq

/-- The dispatch structure of `handleMessage`, factored out: the source's
chain of `if`/`return` statements translated in order. -/
def classifyMessage (msg : TgMessage) : MsgClass :=
  let text := jsText msg
  if jsStartsWith text "/start" then .start
  else if jsStartsWith text "/setkey" then .setkey
  else if jsStartsWith text "/stats" then .stats
  else if jsStartsWith text "/history" then .history
  else if jsStartsWith text "/delete" then .delete
  else if jsStartsWith text "/help" then .help
  else
    match receiptCapture text with
    | some pfx => .receiptDetail pfx
    | none =>
      if msg.photo.length > 0 then .photo
      else if !(text == "") && !(jsStartsWith text "/") then .textReceipt
      else if jsStartsWith text "/" then .unknown
      else .ignore

/-- First-match-wins evaluation of an ordered (matcher, class) list;
falls through to `ignore` when nothing matches. -/
def firstMatch (ms : List ((TgMessage → Bool) × (TgMessage → MsgClass)))
    (msg : TgMessage) : MsgClass :=
  match ms with
  | [] => .ignore
  | (p, k) :: rest => if p msg then k msg else firstMatch rest msg

/-- The matcher list exactly as the spec describes the classification:
literal command text prefixes in the stated order, then the `/receipt`
id-prefix pattern, then a photo payload, then non-empty text not starting
with `/`, then any other text starting with `/`. -/
def specMatchers : List ((TgMessage → Bool) × (TgMessage → MsgClass)) :=
  [ (fun m => jsStartsWith (jsText m) "/start", fun _ => .start),
    (fun m => jsStartsWith (jsText m) "/setkey", fun _ => .setkey),
    (fun m => jsStartsWith (jsText m) "/stats", fun _ => .stats),
    (fun m => jsStartsWith (jsText m) "/history", fun _ => .history),
    (fun m => jsStartsWith (jsText m) "/delete", fun _ => .delete),
    (fun m => jsStartsWith (jsText m) "/help", fun _ => .help),
    (fun m => (receiptCapture (jsText m)).isSome,
      fun m => .receiptDetail ((receiptCapture (jsText m)).getD "")),
    (fun m => m.photo.length > 0, fun _ => .photo),
    (fun m => !(jsText m == "") && !(jsStartsWith (jsText m) "/"),
      fun _ => .textReceipt),
    (fun m => jsStartsWith (jsText m) "/", fun _ => .unknown) ]

/-- Spec-side classifier: first match wins over `specMatchers`. -/
def classifySpec (msg : TgMessage) : MsgClass :=
  firstMatch specMatchers msg

/-- C1: the dispatcher classifies every inbound message by evaluating the
listed matchers in order with first match winning: the literal command
prefixes `/start`, `/setkey`, `/stats`, `/history`, `/delete`, `/help`
(string prefix, trailing arguments tolerated), then the `/receipt`
id-prefix pattern, then presence of a photo payload, then any non-empty
text not starting with `/` (free-form expense description), then any other
text starting with `/` (unrecognized-command reply), otherwise no reply. -/
theorem C1_dispatch_first_match (msg : TgMessage) :
    classifyMessage msg = classifySpec msg := by
  unfold classifyMessage classifySpec specMatchers
  cases h : receiptCapture (jsText msg) <;> simp [firstMatch, h]

/-! ### Data model: rows of the SQLite schema (`lib/database.ts`) -/

/-- A row of `users` (`User` of `lib/auth.ts`). -/
structure User where
  id : String
  email : String
  password : String
  name : String
  created_at : Nat
deriving Repr, DecidableEq

/-- A row of `telegram_users` (`TelegramUser` of `lib/telegram-users.ts`). -/
structure TelegramUser where
  chat_id : String
  user_id : String
  google_api_key : Option String
  created_at : Nat
deriving Repr, DecidableEq

/-- `ReceiptItem` of `types/receipt.ts`: `id`/`receipt_id` are optional
because extraction results carry items without row ids. -/
structure ReceiptItem where
  id : Option String
  receipt_id : Option String
  name : String
  quantity : ℚ
  unit_price : ℚ
  total_price : ℚ
  category : Option String
deriving Repr, DecidableEq

/-- `ReceiptAnalysisResult` of `types/receipt.ts`. -/
structure ReceiptAnalysisResult where
  store_name : Option String
  date : Option String
  time : Option String
  items : List ReceiptItem
  subtotal : Option ℚ
  tax : Option ℚ
  total_amount : Option ℚ
  currency : Option String
  payment_method : Option String
  error : Option String
deriving Repr, DecidableEq

/-- A row of `receipts`. -/
structure Receipt where
  id : String
  store_name : Option String
  date : Option String
  time : Option String
  subtotal : Option ℚ
  tax : Option ℚ
  total_amount : Option ℚ
  currency : Option String
  payment_method : Option String
  raw_response : Option String
  created_at : Nat
deriving Repr, DecidableEq

/-- A row of `user_receipts` (the ownership link). -/
structure UserReceipt where
  id : String
  user_id : String
  receipt_id : String
  added_at : Nat
  notes : Option String
deriving Repr, DecidableEq

/-- `UserReceiptWithDetails`: a receipt joined with its link row and items. -/
structure UserReceiptWithDetails where
  receipt : Receipt
  items : List ReceiptItem
  user_receipt_id : String
  added_at : Nat
  notes : Option String
deriving Repr, DecidableEq

/-- The persistent store: one list per table, plus a fresh-id supply
standing for `crypto.randomUUID()` and a clock standing for
`new Date().toISOString()` (timestamps as naturals, so that consecutive
writes get increasing stamps). -/
structure DB where
  users : List User
  telegram_users : List TelegramUser
  receipts : List Receipt
  receipt_items : List ReceiptItem
  user_receipts : List UserReceipt
  fresh : Nat
  now : Nat
deriving Repr, DecidableEq

/-- The fresh-id supply, injectively rendered as a string. -/
def uuidGen (n : Nat) : String := "uid-" ++ toString n

/-- JS falsiness of a `string | null` value: null or the empty string. -/
def jsFalsyStr : Option String → Bool
  | none => true
  | some s => s == ""

/-- `x || null` / `x || undefined` on an optional string: an empty string
collapses to absent. -/
def jsOrNone : Option String → Option String
  | some s => if s == "" then none else some s
  | none => none

/-! ### `lib/auth.ts` / `lib/telegram-users.ts` -/

/-- `createUser`: inserts a `users` row. The pbkdf2 hash is kept abstract
as a tagged string; no claim inspects it. -/
def createUser (db : DB) (email password name : String) : User × DB :=
  let id := uuidGen db.fresh
  let u : User := { id, email, password := "hashed:" ++ password, name,
                    created_at := db.now }
  (u, { db with users := db.users ++ [u], fresh := db.fresh + 1,
                now := db.now + 1 })

/-- `findTelegramUser`: `SELECT * FROM telegram_users WHERE chat_id = ?`
(`chat_id` is the primary key, so the first match is the row). -/
def findTelegramUser (db : DB) (chatId : String) : Option TelegramUser :=
  db.telegram_users.find? (fun s => s.chat_id == chatId)

/-- `createTelegramUser`: synthesizes a placeholder account
(`tg_<chatId>@telegram.local`, random password) and inserts the
`telegram_users` row with `google_api_key = NULL`. -/
def createTelegramUser (db : DB) (chatId name : String) : TelegramUser × DB :=
  let email := "tg_" ++ chatId ++ "@telegram.local"
  let password := uuidGen db.fresh
  let db1 := { db with fresh := db.fresh + 1 }
  let userOut := createUser db1 email password name
  let db2 := userOut.2
  let tu : TelegramUser := { chat_id := chatId, user_id := userOut.1.id,
                             google_api_key := none, created_at := db2.now }
  (tu, { db2 with telegram_users := db2.telegram_users ++ [tu],
                  now := db2.now + 1 })

/-- `getOrCreateTelegramUser`: returns the existing session unchanged,
otherwise creates account and session. -/
def getOrCreateTelegramUser (db : DB) (chatId name : String) :
    TelegramUser × DB :=
  match findTelegramUser db chatId with
  | some existing => (existing, db)
  | none => createTelegramUser db chatId name

/-- `setGoogleApiKey`: `UPDATE telegram_users SET google_api_key = ? WHERE
chat_id = ?`; returns whether a row changed. -/
def setGoogleApiKey (db : DB) (chatId apiKey : String) : Bool × DB :=
  let changed := (db.telegram_users.find? (fun s => s.chat_id == chatId)).isSome
  (changed,
   { db with telegram_users :=
       (db.telegram_users.map
         (fun s => if s.chat_id == chatId
                   then { s with google_api_key := some apiKey } else s)) })

/-! ### `lib/receipt-storage.ts` -/

/-- The item rows inserted by `createReceipt`'s transaction, with fresh row
ids; returns the rows and the advanced fresh supply. -/
def insertItems (items : List ReceiptItem) (rid : String) (fresh : Nat) :
    List ReceiptItem × Nat :=
  match items with
  | [] => ([], fresh)
  | it :: rest =>
    let row := { it with id := some (uuidGen fresh),
                         receipt_id := some rid }
    let tail := insertItems rest rid (fresh + 1)
    (row :: tail.1, tail.2)

/-- `createReceipt`: atomically inserts the receipt header and its item
rows. `raw_response` keeps the raw bridge text when supplied; the
`JSON.stringify(analysisResult)` fallback (serializing an external JSON
value) is kept abstract as `none` — no claim reads this column. -/
def createReceipt (db : DB) (res : ReceiptAnalysisResult)
    (rawResponse : Option String) : Receipt × DB :=
  let id := uuidGen db.fresh
  let r : Receipt :=
    { id, store_name := res.store_name, date := res.date, time := res.time,
      subtotal := res.subtotal, tax := res.tax,
      total_amount := res.total_amount, currency := res.currency,
      payment_method := res.payment_method, raw_response := rawResponse,
      created_at := db.now }
  let rows := insertItems res.items id (db.fresh + 1)
  (r, { db with receipts := db.receipts ++ [r],
                receipt_items := db.receipt_items ++ rows.1,
                fresh := rows.2, now := db.now + 1 })

/-- `deleteReceipt`: `DELETE FROM receipts WHERE id = ?`; the schema's
`ON DELETE CASCADE` foreign keys (with `foreign_keys = ON`) also remove the
receipt's item rows and its ownership links. -/
def deleteReceipt (db : DB) (id : String) : Bool × DB :=
  let hit := db.receipts.any (fun r => r.id == id)
  (hit,
   { db with
       receipts := db.receipts.filter (fun r => !(r.id == id)),
       receipt_items :=
         db.receipt_items.filter (fun it => !(it.receipt_id == some id)),
       user_receipts :=
         db.user_receipts.filter (fun l => !(l.receipt_id == id)) })

/-- `linkReceiptToUser`: inserts a `user_receipts` row
(`notes || null` collapses an empty string). -/
def linkReceiptToUser (db : DB) (userId receiptId : String)
    (notes : Option String) : UserReceipt × DB :=
  let l : UserReceipt := { id := uuidGen db.fresh, user_id := userId,
                           receipt_id := receiptId, added_at := db.now,
                           notes := jsOrNone notes }
  (l, { db with user_receipts := db.user_receipts ++ [l],
                fresh := db.fresh + 1, now := db.now + 1 })

/-- `unlinkReceiptFromUser`: `DELETE FROM user_receipts WHERE user_id = ?
AND receipt_id = ?`; returns whether a row was removed. -/
def unlinkReceiptFromUser (db : DB) (userId receiptId : String) :
    Bool × DB :=
  let hit := db.user_receipts.any
    (fun l => l.user_id == userId && l.receipt_id == receiptId)
  (hit,
   { db with user_receipts :=
       (db.user_receipts.filter
         (fun l => !(l.user_id == userId && l.receipt_id == receiptId))) })

/-- `getReceiptItems`: the item rows of one receipt. -/
def getReceiptItems (db : DB) (receiptId : String) : List ReceiptItem :=
  db.receipt_items.filter (fun it => it.receipt_id == some receiptId)

/-- `ORDER BY ur.added_at DESC`: newest link first. -/
def addedGe (a b : UserReceiptWithDetails) : Prop :=
  b.added_at ≤ a.added_at

instance : DecidableRel addedGe :=
  fun a b => inferInstanceAs (Decidable (b.added_at ≤ a.added_at))

instance : IsTotal UserReceiptWithDetails addedGe :=
  ⟨fun a b => le_total b.added_at a.added_at⟩

instance : IsTrans UserReceiptWithDetails addedGe :=
  ⟨fun _ _ _ h1 h2 => le_trans h2 h1⟩

/-- The `INNER JOIN` of `getUserReceipts` before ordering: one row per
ownership link of the account whose receipt row exists (`receipts.id` is
the primary key, so `find?` resolves the join). -/
def joinUserReceipts (db : DB) (userId : String) :
    List UserReceiptWithDetails :=
  (db.user_receipts.filter (fun l => l.user_id == userId)).filterMap
    (fun l => (db.receipts.find? (fun r => r.id == l.receipt_id)).map
      (fun r => { receipt := r, items := getReceiptItems db r.id,
                  user_receipt_id := l.id, added_at := l.added_at,
                  notes := l.notes }))

/-- `getUserReceipts`: the join ordered by link-added timestamp
descending. -/
def getUserReceipts (db : DB) (userId : String) :
    List UserReceiptWithDetails :=
  List.insertionSort addedGe (joinUserReceipts db userId)

/-- The joined `r.total_amount` column the stats query aggregates over
(one value per ownership link; `NULL` totals included). -/
def userReceiptTotals (db : DB) (userId : String) : List (Option ℚ) :=
  (db.user_receipts.filter (fun l => l.user_id == userId)).filterMap
    (fun l => (db.receipts.find? (fun r => r.id == l.receipt_id)).map
      (fun r => r.total_amount))

structure ReceiptStats where
  totalReceipts : Nat
  totalAmount : ℚ
  averageAmount : ℚ
deriving Repr, DecidableEq

/-- `getUserReceiptStats`: `COUNT(*)`, `COALESCE(SUM(r.total_amount), 0)`,
`COALESCE(AVG(r.total_amount), 0)` over the join. SQL `SUM` and `AVG`
skip `NULL` values and are themselves `NULL` (coalesced to 0) when no
non-`NULL` value exists; `AVG` divides by the number of non-`NULL`
values. -/
def getUserReceiptStats (db : DB) (userId : String) : ReceiptStats :=
  let totals := userReceiptTotals db userId
  let nn := totals.filterMap id
  { totalReceipts := totals.length,
    totalAmount := nn.sum,
    averageAmount := if nn.length = 0 then 0 else nn.sum / nn.length }

/-! ### Handler outputs (`lib/telegram-handlers.ts`)

Every `sendMessage` of the source corresponds to one `Reply` constructor
carrying the data interpolated into the message template; `sendChatAction`
and the two bridge invocations are recorded as further effects. -/

inductive Reply where
  | welcome (name : String)
  | setKeyUsage
  | setKeyOk
  | registerFirst
  | statsReport (s : ReceiptStats)
  | noReceiptsYet
  | historyList (recent : List UserReceiptWithDetails)
  | receiptNotFound
  | receiptDetail (r : UserReceiptWithDetails)
  | deleteUsage
  | deleteNotFound
  | deleted (shortId : String)
  | helpText
  | setKeyPrompt
  | noFilePath
  | analyzing
  | parseError
  | analysisError (e : String)
  | savedReceipt (r : UserReceiptWithDetails) (shortId : String)
  | analysisFailed
  | unknownCommand
deriving Repr, DecidableEq

inductive Effect where
  | send (r : Reply)
  | typing
  | bridgeImage
  | bridgeText
deriving Repr, DecidableEq

/-- The raw text returned by the extraction bridge together with the result
of `JSON.parse` applied to it (`none`: the parse throws). Both are produced
outside the repository, so the pair enters the handlers as a parameter. -/
structure BridgeOutput where
  raw : String
  parsed : Option ReceiptAnalysisResult
deriving Repr, DecidableEq

/-- truthiness of `analysisResult.error` (typed `string | null`). -/
def errTruthy : Option String → Bool
  | none => false
  | some s => !(s == "")

/-- `getUserName`: joins the present, non-empty name parts with a space
(`[first_name, last_name].filter(Boolean).join(' ')`). -/
def getUserName (msg : TgMessage) : String :=
  match msg.sender with
  | none => "User"
  | some f =>
    String.intercalate " "
      (([some f.first_name, f.last_name].filterMap id).filter
        (fun s => !(s == "")))

/-- `String(chatId)` on the numeric chat id. -/
def chatStr (msg : TgMessage) : String := toString msg.chat_id

/-- `createReceiptForUser`: create the receipt, then link it to the
account; the combined row is returned for rendering. -/
def createReceiptForUser (db : DB) (userId : String)
    (res : ReceiptAnalysisResult) (notes rawResponse : Option String) :
    UserReceiptWithDetails × DB :=
  let rOut := createReceipt db res rawResponse
  let lOut := linkReceiptToUser rOut.2 userId rOut.1.id notes
  ({ receipt := rOut.1, items := res.items, user_receipt_id := lOut.1.id,
     added_at := lOut.1.added_at, notes := lOut.1.notes }, lOut.2)

/-- `handleStart`: idempotent provisioning plus the welcome reply. -/
def handleStart (msg : TgMessage) (db : DB) : DB × List Effect :=
  let db1 := (getOrCreateTelegramUser db (chatStr msg) (getUserName msg)).2
  (db1, [.send (.welcome (getUserName msg))])

/-- `handleSetKey`: provisions the session first, then requires a second
whitespace-separated token (`parts.length < 2 || !parts[1]`). -/
def handleSetKey (msg : TgMessage) (db : DB) : DB × List Effect :=
  let chatId := chatStr msg
  let db1 := (getOrCreateTelegramUser db chatId (getUserName msg)).2
  match jsSplitWs (jsText msg) with
  | _ :: apiKey :: _ =>
    if apiKey == "" then (db1, [.send .setKeyUsage])
    else (( setGoogleApiKey db1 chatId apiKey).2, [.send .setKeyOk])
  | _ => (db1, [.send .setKeyUsage])

/-- `handleStats`. -/
def handleStats (msg : TgMessage) (db : DB) : DB × List Effect :=
  match findTelegramUser db (chatStr msg) with
  | none => (db, [.send .registerFirst])
  | some tgUser =>
    (db, [.send (.statsReport (getUserReceiptStats db tgUser.user_id))])

/-- `handleHistory`: the first 10 of the newest-link-first listing. -/
def handleHistory (msg : TgMessage) (db : DB) : DB × List Effect :=
  match findTelegramUser db (chatStr msg) with
  | none => (db, [.send .registerFirst])
  | some tgUser =>
    let receipts := getUserReceipts db tgUser.user_id
    if receipts.length == 0 then (db, [.send .noReceiptsYet])
    else (db, [.send (.historyList (receipts.take 10))])

/-- `handleReceiptDetail`: first receipt (newest link first) whose id
starts with the captured prefix, by case-sensitive `String.startsWith`. -/
def handleReceiptDetail (msg : TgMessage) (receiptIdPfx : String)
    (db : DB) : DB × List Effect :=
  match findTelegramUser db (chatStr msg) with
  | none => (db, [.send .registerFirst])
  | some tgUser =>
    let receipts := getUserReceipts db tgUser.user_id
    match receipts.find? (fun r => jsStartsWith r.receipt.id receiptIdPfx) with
    | none => (db, [.send .receiptNotFound])
    | some m => (db, [.send (.receiptDetail m)])

/-- `handleDelete`: argument check is `parts.length < 2` only; on a match,
unlink first, then delete the receipt row. -/
def handleDelete (msg : TgMessage) (db : DB) : DB × List Effect :=
  match findTelegramUser db (chatStr msg) with
  | none => (db, [.send .registerFirst])
  | some tgUser =>
    match jsSplitWs (jsText msg) with
    | _ :: idPfx :: _ =>
      let receipts := getUserReceipts db tgUser.user_id
      match receipts.find? (fun r => jsStartsWith r.receipt.id idPfx) with
      | none => (db, [.send .deleteNotFound])
      | some m =>
        let db1 := (unlinkReceiptFromUser db tgUser.user_id m.receipt.id).2
        let db2 := (deleteReceipt db1 m.receipt.id).2
        (db2, [.send (.deleted (m.receipt.id.take 8))])
    | _ => (db, [.send .deleteUsage])

/-- `handleHelp`: static help text. -/
def handleHelp (_msg : TgMessage) (db : DB) : DB × List Effect :=
  (db, [.send .helpText])

/-- `handlePhoto` (lines 185–241): provision if absent, gate on the
credential, fetch and encode the largest photo variant, call the bridge,
then the three-way outcome of the parsed result. -/
def handlePhoto (msg : TgMessage) (filePath : Option String)
    (bridge : BridgeOutput) (db : DB) : DB × List Effect :=
  let chatId := chatStr msg
  let db1 :=
    if (findTelegramUser db chatId).isSome then db
    else (getOrCreateTelegramUser db chatId (getUserName msg)).2
  match findTelegramUser db1 chatId with
  | none => (db1, [])  -- dead branch: the source asserts existence with `!`
  | some user =>
    if jsFalsyStr user.google_api_key then
      (db1, [.send .setKeyPrompt])
    else
      match msg.photo.getLast? with
      | none =>
        -- `photos[photos.length - 1]` on an empty/absent array throws;
        -- the handler's catch-all renders the generic failure
        (db1, [.typing, .send .analysisFailed])
      | some _largest =>
        match filePath with
        | none => (db1, [.typing, .send .noFilePath])
        | some _path =>
          match bridge.parsed with
          | none =>
            (db1, [.typing, .send .analyzing, .bridgeImage,
                   .send .parseError])
          | some res =>
            if errTruthy res.error then
              (db1, [.typing, .send .analyzing, .bridgeImage,
                     .send (.analysisError (res.error.getD ""))])
            else
              let out := createReceiptForUser db1 user.user_id res
                (jsOrNone msg.caption) (some bridge.raw)
              (out.2, [.typing, .send .analyzing, .bridgeImage,
                       .send (.savedReceipt out.1 (out.1.receipt.id.take 8))])

/-- `handleTextReceipt` (lines 243–285): like the photo path but sends the
quoted text to the bridge and never attaches notes. -/
def handleTextReceipt (msg : TgMessage) (bridge : BridgeOutput) (db : DB) :
    DB × List Effect :=
  let chatId := chatStr msg
  let db1 :=
    if (findTelegramUser db chatId).isSome then db
    else (getOrCreateTelegramUser db chatId (getUserName msg)).2
  match findTelegramUser db1 chatId with
  | none => (db1, [])  -- dead branch: the source asserts existence with `!`
  | some user =>
    if jsFalsyStr user.google_api_key then
      (db1, [.send .setKeyPrompt])
    else
      match bridge.parsed with
      | none => (db1, [.typing, .bridgeText, .send .parseError])
      | some res =>
        if errTruthy res.error then
          (db1, [.typing, .bridgeText,
                 .send (.analysisError (res.error.getD ""))])
        else
          let out := createReceiptForUser db1 user.user_id res none
            (some bridge.raw)
          (out.2, [.typing, .bridgeText,
                   .send (.savedReceipt out.1 (out.1.receipt.id.take 8))])

/-- `handleMessage`: the single dispatcher entry point, routing on
`classifyMessage`. -/
def handleMessage (msg : TgMessage) (filePath : Option String)
    (bridge : BridgeOutput) (db : DB) : DB × List Effect :=
  match classifyMessage msg with
  | .start => handleStart msg db
  | .setkey => handleSetKey msg db
  | .stats => handleStats msg db
  | .history => handleHistory msg db
  | .delete => handleDelete msg db
  | .help => handleHelp msg db
  | .receiptDetail idPfx => handleReceiptDetail msg idPfx db
  | .photo => handlePhoto msg filePath bridge db
  | .textReceipt => handleTextReceipt msg bridge db
  | .unknown => (db, [.send .unknownCommand])
  | .ignore => (db, [])

/-! ### Helper lemmas -/

theorem strHasPre_append (p t : List Char) : strHasPre (p ++ t) p = true := by
  induction p with
  | nil => cases t <;> rfl
  | cons c cs ih => simp [strHasPre, ih]

theorem jsStartsWith_append (p s : String) : jsStartsWith (p ++ s) p = true := by
  simp [jsStartsWith, String.data_append, strHasPre_append]

/-- `split(/\s+/)` of a fully-blank, nonempty string is `["", ""]`. -/
theorem splitWsGo_allws (w : List Char) (hne : w ≠ [])
    (hw : ∀ c ∈ w, isWs c = true) : splitWsGo w = ["", ""] := by
  induction w with
  | nil => simp at hne
  | cons c rest ih =>
    have hc : isWs c = true := hw c (by simp)
    cases rest with
    | nil => simp [splitWsGo, splitWsStep, hc]
    | cons c2 r2 =>
      have hc2 : isWs c2 = true := hw c2 (by simp)
      have h2 := ih (by simp) (fun x hx => hw x (by simp [hx]))
      show splitWsStep c (c2 :: r2) (splitWsGo (c2 :: r2)) = ["", ""]
      rw [h2]
      simp [splitWsStep, hc, hc2]

/-- Unfolding `splitWsGo` across one non-blank character. -/
theorem splitWsGo_nonws_cons (c : Char) (l : List Char)
    (hc : isWs c = false) :
    splitWsGo (c :: l) = (match splitWsGo l with
      | [] => [String.mk [c]]
      | h :: t => String.mk (c :: h.data) :: t) := by
  show splitWsStep c l (splitWsGo l) = _
  simp [splitWsStep, hc]

/-- After provisioning, the session is present: `findTelegramUser` returns
exactly the row `getOrCreateTelegramUser` returned. -/
theorem getOrCreate_find (db : DB) (chatId name : String) :
    findTelegramUser (getOrCreateTelegramUser db chatId name).2 chatId =
      some (getOrCreateTelegramUser db chatId name).1 := by
  unfold getOrCreateTelegramUser
  cases h : findTelegramUser db chatId with
  | some u => simp [h]
  | none =>
    unfold createTelegramUser createUser
    unfold findTelegramUser at h ⊢
    simp [List.find?_append, h]

/-- Provisioning never touches the receipt tables, and every pre-existing
session row survives unchanged. -/
theorem getOrCreate_preserves (db : DB) (chatId name : String) :
    (getOrCreateTelegramUser db chatId name).2.receipts = db.receipts ∧
    (getOrCreateTelegramUser db chatId name).2.receipt_items =
      db.receipt_items ∧
    (getOrCreateTelegramUser db chatId name).2.user_receipts =
      db.user_receipts ∧
    ∀ s ∈ db.telegram_users,
      s ∈ (getOrCreateTelegramUser db chatId name).2.telegram_users := by
  unfold getOrCreateTelegramUser createTelegramUser createUser
  cases h : findTelegramUser db chatId with
  | some u => simp [h]
  | none =>
    refine ⟨by simp [h], by simp [h], by simp [h], ?_⟩
    intro s hs
    simp [h, hs]

/-! ### Concrete fixtures for witnesses and counterexamples -/

/-- The empty store. -/
def emptyDB : DB :=
  { users := [], telegram_users := [], receipts := [], receipt_items := [],
    user_receipts := [], fresh := 0, now := 0 }

/-- A text-only message from chat 1. -/
def textMsg (t : String) : TgMessage :=
  { message_id := 1, sender := none, chat_id := 1, date := 0,
    text := some t, photo := [], caption := none }

/-- A bridge output whose raw text does not parse as JSON. -/
def bridgeNone : BridgeOutput := { raw := "not json", parsed := none }

/-! ### C4 -/

/-- C4: calling `getOrCreateTelegramUser` twice with the same chat identity
yields the same session — hence the same backing account `user_id` — both
times: the second call (under any display name) returns the first call's
session unchanged and leaves the store exactly as the first call left it,
so no new account or session row is created. -/
theorem C4_provisioning_idempotent (db : DB) (chatId name name2 : String) :
    getOrCreateTelegramUser (getOrCreateTelegramUser db chatId name).2
        chatId name2 =
      getOrCreateTelegramUser db chatId name := by
  have h := getOrCreate_find db chatId name
  rw [getOrCreateTelegramUser.eq_def, h]

/-! ### C5 -/

/-- C5 counterexample: on the empty store, the message `/setkey` (no
argument) from the unregistered chat 1 draws the usage-error reply, yet a
session row and a backing account are created — refuting "performs no
mutation of session state: no session or Account is created". -/
theorem C5_counterexample :
    (handleMessage (textMsg "/setkey") none bridgeNone emptyDB).2 =
      [.send .setKeyUsage] ∧
    (handleMessage (textMsg "/setkey") none bridgeNone
        emptyDB).1.telegram_users.length = 1 ∧
    (handleMessage (textMsg "/setkey") none bridgeNone
        emptyDB).1.users.length = 1 ∧
    emptyDB.telegram_users = [] ∧ emptyDB.users = [] := by
  refine ⟨?_, ?_, ?_, rfl, rfl⟩ <;> rfl

/-- C5 (amended): for every message whose text has no second
whitespace-separated token (absent or empty), `handleSetKey` replies with
the usage error and stores or changes no credential: every pre-existing
session row survives with its `google_api_key` unchanged and the receipt
tables are untouched. The only mutation is the idempotent provisioning of
the session itself, which the source performs before the argument check
(so a session and backing account are created when the chat had none). -/
theorem C5_setkey_missing_arg (db : DB) (msg : TgMessage)
    (h : (jsSplitWs (jsText msg)).getD 1 "" = "") :
    (handleSetKey msg db).1 =
      (getOrCreateTelegramUser db (chatStr msg) (getUserName msg)).2 ∧
    (handleSetKey msg db).2 = [.send .setKeyUsage] ∧
    (∀ s ∈ db.telegram_users,
      s ∈ (handleSetKey msg db).1.telegram_users) ∧
    (handleSetKey msg db).1.receipts = db.receipts ∧
    (handleSetKey msg db).1.user_receipts = db.user_receipts := by
  obtain ⟨hr, hi, hu, hs⟩ :=
    getOrCreate_preserves db (chatStr msg) (getUserName msg)
  have hmain : handleSetKey msg db =
      ((getOrCreateTelegramUser db (chatStr msg) (getUserName msg)).2,
       [Effect.send .setKeyUsage]) := by
    unfold handleSetKey
    rcases hp : jsSplitWs (jsText msg) with _ | ⟨a, _ | ⟨k, rest⟩⟩
    · simp [hp]
    · simp [hp]
    · have hk : k = "" := by simpa [hp] using h
      simp [hp, hk]
  rw [hmain]
  exact ⟨rfl, rfl, fun s hs2 => hs s hs2, hr, hu⟩

/-- A store holding one registered session for chat 1 with a stored
credential. -/
def dbKeyed : DB :=
  { users := [{ id := "u0", email := "e", password := "p", name := "n",
                created_at := 0 }],
    telegram_users := [{ chat_id := "1", user_id := "u0",
                         google_api_key := some "abc", created_at := 0 }],
    receipts := [], receipt_items := [], user_receipts := [],
    fresh := 0, now := 1 }

/-- Witness for the amended C5 at the concrete input `/setkey` on a store
whose session already holds the credential `abc`. -/
theorem C5_setkey_missing_arg_witness :
    (jsSplitWs (jsText (textMsg "/setkey"))).getD 1 "" = "" ∧
    ((handleSetKey (textMsg "/setkey") dbKeyed).1 =
      (getOrCreateTelegramUser dbKeyed (chatStr (textMsg "/setkey"))
        (getUserName (textMsg "/setkey"))).2 ∧
    (handleSetKey (textMsg "/setkey") dbKeyed).2 = [.send .setKeyUsage] ∧
    (∀ s ∈ dbKeyed.telegram_users,
      s ∈ (handleSetKey (textMsg "/setkey") dbKeyed).1.telegram_users) ∧
    (handleSetKey (textMsg "/setkey") dbKeyed).1.receipts =
      dbKeyed.receipts ∧
    (handleSetKey (textMsg "/setkey") dbKeyed).1.user_receipts =
      dbKeyed.user_receipts) :=
  ⟨by decide, C5_setkey_missing_arg dbKeyed (textMsg "/setkey") (by decide)⟩

/-! ### C3 -/

/-- A session provisioned on first contact starts with no credential. -/
theorem created_key_none (db : DB) (chatId name : String)
    (h : findTelegramUser db chatId = none) :
    (getOrCreateTelegramUser db chatId name).1.google_api_key = none := by
  unfold getOrCreateTelegramUser
  rw [h]
  rfl

/-- The photo path emits its bridge call only when the chat already has a
session whose credential is non-empty. -/
theorem bridgeImage_needs_key (db : DB) (msg : TgMessage)
    (fp : Option String) (br : BridgeOutput)
    (hmem : Effect.bridgeImage ∈ (handlePhoto msg fp br db).2) :
    ∃ v, findTelegramUser db (chatStr msg) = some v ∧
      jsFalsyStr v.google_api_key = false := by
  unfold handlePhoto at hmem
  cases hf : findTelegramUser db (chatStr msg) with
  | some v =>
    simp only [hf, Option.isSome_some, if_true] at hmem
    by_cases hk : jsFalsyStr v.google_api_key
    · simp [hk] at hmem
    · exact ⟨v, by simp [hf], by simpa using hk⟩
  | none =>
    have hkey := created_key_none db (chatStr msg) (getUserName msg) hf
    have hfind := getOrCreate_find db (chatStr msg) (getUserName msg)
    simp only [hf, Option.isSome_none, Bool.false_eq_true, if_false,
      hfind] at hmem
    simp [hkey, jsFalsyStr] at hmem

/-- The text path emits its bridge call only when the chat already has a
session whose credential is non-empty. -/
theorem bridgeText_needs_key (db : DB) (msg : TgMessage) (br : BridgeOutput)
    (hmem : Effect.bridgeText ∈ (handleTextReceipt msg br db).2) :
    ∃ v, findTelegramUser db (chatStr msg) = some v ∧
      jsFalsyStr v.google_api_key = false := by
  unfold handleTextReceipt at hmem
  cases hf : findTelegramUser db (chatStr msg) with
  | some v =>
    simp only [hf, Option.isSome_some, if_true] at hmem
    by_cases hk : jsFalsyStr v.google_api_key
    · simp [hk] at hmem
    · exact ⟨v, by simp [hf], by simpa using hk⟩
  | none =>
    have hkey := created_key_none db (chatStr msg) (getUserName msg) hf
    have hfind := getOrCreate_find db (chatStr msg) (getUserName msg)
    simp only [hf, Option.isSome_none, Bool.false_eq_true, if_false,
      hfind] at hmem
    simp [hkey, jsFalsyStr] at hmem

/-- C3: on both the image path and the text path, when the chat's session
has no non-empty credential (null or empty `google_api_key`), the handler
only replies with the `/setkey` prompt: the store is returned unchanged (in
particular no receipt or link is persisted) and no bridge call appears in
the effect trace. Conversely — over every store — a bridge effect can only
occur when the session existed with a non-empty credential string. -/
theorem C3_credential_gate (db : DB) (msg : TgMessage) (fp : Option String)
    (br : BridgeOutput) (u : TelegramUser)
    (hu : findTelegramUser db (chatStr msg) = some u)
    (hk : jsFalsyStr u.google_api_key = true) :
    (handlePhoto msg fp br db = (db, [.send .setKeyPrompt]) ∧
     handleTextReceipt msg br db = (db, [.send .setKeyPrompt])) ∧
    (∀ db2 : DB, Effect.bridgeImage ∈ (handlePhoto msg fp br db2).2 →
      ∃ v, findTelegramUser db2 (chatStr msg) = some v ∧
        jsFalsyStr v.google_api_key = false) ∧
    (∀ db2 : DB, Effect.bridgeText ∈ (handleTextReceipt msg br db2).2 →
      ∃ v, findTelegramUser db2 (chatStr msg) = some v ∧
        jsFalsyStr v.google_api_key = false) := by
  refine ⟨⟨?_, ?_⟩, fun db2 h2 => bridgeImage_needs_key db2 msg fp br h2,
    fun db2 h2 => bridgeText_needs_key db2 msg br h2⟩
  · unfold handlePhoto
    simp [hu, hk]
  · unfold handleTextReceipt
    simp [hu, hk]

/-- A registered session for chat 1 without a credential. -/
def sessNoKey : TelegramUser :=
  { chat_id := "1", user_id := "u0", google_api_key := none,
    created_at := 0 }

/-- A store holding only the credential-less session of chat 1. -/
def dbNoKey : DB :=
  { users := [{ id := "u0", email := "e", password := "p", name := "n",
                created_at := 0 }],
    telegram_users := [sessNoKey],
    receipts := [], receipt_items := [], user_receipts := [],
    fresh := 0, now := 1 }

/-- Witness for C3 at a registered session with no credential. -/
theorem C3_credential_gate_witness :
    findTelegramUser dbNoKey (chatStr (textMsg "hi")) = some sessNoKey ∧
    jsFalsyStr sessNoKey.google_api_key = true ∧
    handlePhoto (textMsg "hi") none bridgeNone dbNoKey =
      (dbNoKey, [.send .setKeyPrompt]) ∧
    handleTextReceipt (textMsg "hi") bridgeNone dbNoKey =
      (dbNoKey, [.send .setKeyPrompt]) := by
  refine ⟨by decide, by decide, ?_, ?_⟩
  · exact (C3_credential_gate dbNoKey (textMsg "hi") none bridgeNone
      sessNoKey (by decide) (by decide)).1.1
  · exact (C3_credential_gate dbNoKey (textMsg "hi") none bridgeNone
      sessNoKey (by decide) (by decide)).1.2

/-! ### C2 -/

/-- A parsed extraction result all of whose data fields are null and whose
`error` field is the empty string — non-null, but falsy in JS. -/
def resEmptyErr : ReceiptAnalysisResult :=
  { store_name := none, date := none, time := none, items := [],
    subtotal := none, tax := none, total_amount := none, currency := none,
    payment_method := none, error := some "" }

/-- Bridge output parsing to `resEmptyErr`. -/
def brEmptyErr : BridgeOutput := { raw := "json", parsed := some resEmptyErr }

/-- A registered session for chat 1 holding credential `abc`. -/
def sessKeyed : TelegramUser :=
  { chat_id := "1", user_id := "u0", google_api_key := some "abc",
    created_at := 0 }

/-- C2 counterexample: a bridge output that parses to a result whose
`error` field is `""` — non-null — is nonetheless persisted as a Receipt
(the source tests `if (analysisResult.error)`, i.e. truthiness, not
non-nullness), and the error value is not relayed. -/
theorem C2_counterexample :
    resEmptyErr.error = some "" ∧
    dbKeyed.receipts = [] ∧
    (handleTextReceipt (textMsg "hi") brEmptyErr dbKeyed).1.receipts.length
      = 1 ∧
    Effect.send (.analysisError "") ∉
      (handleTextReceipt (textMsg "hi") brEmptyErr dbKeyed).2 := by
  refine ⟨rfl, rfl, rfl, by decide⟩

/-- C2 (amended): on both paths, for every bridge output reaching the
extraction step (registered session with non-empty credential; on the image
path additionally a photo payload and a fetched file path): when the output
fails to parse the handler replies with the parse-error message and the
store is unchanged; when it parses with a *truthy* (non-null and non-empty)
`error` the handler relays that error value and the store is unchanged; and
when it parses with a falsy `error` (null, absent, or the empty string) a
receipt row and its ownership link are persisted. -/
theorem C2_extraction_outcomes (db : DB) (msg : TgMessage) (p : String)
    (br : BridgeOutput) (u : TelegramUser)
    (hu : findTelegramUser db (chatStr msg) = some u)
    (hk : jsFalsyStr u.google_api_key = false)
    (hph : msg.photo ≠ []) :
    (br.parsed = none →
      handlePhoto msg (some p) br db =
        (db, [.typing, .send .analyzing, .bridgeImage, .send .parseError]) ∧
      handleTextReceipt msg br db =
        (db, [.typing, .bridgeText, .send .parseError])) ∧
    (∀ res, br.parsed = some res → errTruthy res.error = true →
      handlePhoto msg (some p) br db =
        (db, [.typing, .send .analyzing, .bridgeImage,
              .send (.analysisError (res.error.getD ""))]) ∧
      handleTextReceipt msg br db =
        (db, [.typing, .bridgeText,
              .send (.analysisError (res.error.getD ""))])) ∧
    (∀ res, br.parsed = some res → errTruthy res.error = false →
      (handlePhoto msg (some p) br db).1.receipts.length =
        db.receipts.length + 1 ∧
      (handlePhoto msg (some p) br db).1.user_receipts.length =
        db.user_receipts.length + 1 ∧
      (handleTextReceipt msg br db).1.receipts.length =
        db.receipts.length + 1 ∧
      (handleTextReceipt msg br db).1.user_receipts.length =
        db.user_receipts.length + 1) := by
  obtain ⟨lg, hlg⟩ : ∃ lg, msg.photo.getLast? = some lg := by
    cases hl : msg.photo.getLast? with
    | some x => exact ⟨x, rfl⟩
    | none => rw [List.getLast?_eq_none_iff] at hl; exact absurd hl hph
  refine ⟨fun hbr => ⟨?_, ?_⟩, fun res hbr herr => ⟨?_, ?_⟩,
    fun res hbr herr => ⟨?_, ?_, ?_, ?_⟩⟩
  · unfold handlePhoto
    simp [hu, hk, hlg, hbr]
  · unfold handleTextReceipt
    simp [hu, hk, hbr]
  · unfold handlePhoto
    simp [hu, hk, hlg, hbr, herr]
  · unfold handleTextReceipt
    simp [hu, hk, hbr, herr]
  · unfold handlePhoto
    simp [hu, hk, hlg, hbr, herr, createReceiptForUser, createReceipt,
      linkReceiptToUser]
  · unfold handlePhoto
    simp [hu, hk, hlg, hbr, herr, createReceiptForUser, createReceipt,
      linkReceiptToUser]
  · unfold handleTextReceipt
    simp [hu, hk, hbr, herr, createReceiptForUser, createReceipt,
      linkReceiptToUser]
  · unfold handleTextReceipt
    simp [hu, hk, hbr, herr, createReceiptForUser, createReceipt,
      linkReceiptToUser]

/-- A photo message from chat 1 with one variant and no caption. -/
def photoMsg : TgMessage :=
  { message_id := 2, sender := none, chat_id := 1, date := 0, text := none,
    photo := [{ file_id := "f", file_unique_id := "fu", width := 1,
                height := 1, file_size := none }],
    caption := none }

/-- Witness for the amended C2 at a keyed session and an unparsable bridge
output. -/
theorem C2_extraction_outcomes_witness :
    findTelegramUser dbKeyed (chatStr photoMsg) = some sessKeyed ∧
    jsFalsyStr sessKeyed.google_api_key = false ∧
    photoMsg.photo ≠ [] ∧ bridgeNone.parsed = none ∧
    handlePhoto photoMsg (some "a.png") bridgeNone dbKeyed =
      (dbKeyed, [.typing, .send .analyzing, .bridgeImage,
                 .send .parseError]) ∧
    handleTextReceipt photoMsg bridgeNone dbKeyed =
      (dbKeyed, [.typing, .bridgeText, .send .parseError]) := by
  refine ⟨by decide, by decide, by decide, rfl, ?_⟩
  exact (C2_extraction_outcomes dbKeyed photoMsg "a.png" bridgeNone
    sessKeyed (by decide) (by decide) (by decide)).1 rfl

/-! ### C6 -/

/-- Dropping no element: `filterMap id` keeps the length when no entry is
`none`. -/
theorem filterMap_id_length {α : Type} (ts : List (Option α))
    (h : ∀ t ∈ ts, t ≠ none) : (ts.filterMap id).length = ts.length := by
  induction ts with
  | nil => rfl
  | cons t rest ih =>
    cases t with
    | none => exact absurd rfl (h none (by simp))
    | some v =>
      simp only [List.filterMap_cons, id, List.length_cons]
      rw [ih (fun x hx => h x (by simp [hx]))]

/-- A receipt row carrying only an id, a total and a created stamp. -/
def mkReceiptT (id : String) (t : Option ℚ) (ts : Nat) : Receipt :=
  { id, store_name := none, date := none, time := none, subtotal := none,
    tax := none, total_amount := t, currency := none,
    payment_method := none, raw_response := none, created_at := ts }

/-- An ownership link of account `u0`. -/
def mkLinkU0 (lid rid : String) (ts : Nat) : UserReceipt :=
  { id := lid, user_id := "u0", receipt_id := rid, added_at := ts,
    notes := none }

/-- Account `u0` owns two receipts: one with a `NULL` total and one whose
total is 30. -/
def dbNullTotal : DB :=
  { users := [], telegram_users := [],
    receipts := [mkReceiptT "r1" none 0, mkReceiptT "r2" (some 30) 1],
    receipt_items := [],
    user_receipts := [mkLinkU0 "l1" "r1" 0, mkLinkU0 "l2" "r2" 1],
    fresh := 0, now := 10 }

/-- C6 counterexample: with linked totals `[NULL, 30]` the query returns
count 2, total 30 and mean 30 (SQL `AVG` divides by the number of non-NULL
totals), while the claimed mean total/count would be 15. -/
theorem C6_counterexample :
    getUserReceiptStats dbNullTotal "u0" =
      { totalReceipts := 2, totalAmount := 30, averageAmount := 30 } ∧
    (getUserReceiptStats dbNullTotal "u0").averageAmount ≠
      (getUserReceiptStats dbNullTotal "u0").totalAmount /
        ((getUserReceiptStats dbNullTotal "u0").totalReceipts : ℚ) := by
  have h : getUserReceiptStats dbNullTotal "u0" =
      { totalReceipts := 2, totalAmount := 30, averageAmount := 30 } := by
    simp [getUserReceiptStats, userReceiptTotals, dbNullTotal, mkReceiptT,
      mkLinkU0, List.filter, List.filterMap, List.find?]
  refine ⟨h, ?_⟩
  rw [h]
  norm_num

/-- C6 (amended): for every store and account, the stats operation returns
count equal to the number of ownership links of the account (joined rows),
total equal to the sum of the non-`NULL` linked totals, and mean equal to
that total divided by the number of non-`NULL` totals — 0 when no
non-`NULL` total exists (SQL `AVG` semantics, also over stores mixing
`NULL` and non-`NULL` totals); with no linked receipt it returns exactly
count 0, total 0, mean 0 with no division; and whenever every linked total
is non-`NULL` (in particular for totals `[110, 220]`, giving 2/330/165),
the mean equals total/count as the claim states. -/
theorem C6_stats_semantics (db : DB) (uid : String) :
    (getUserReceiptStats db uid).totalReceipts =
      (userReceiptTotals db uid).length ∧
    (getUserReceiptStats db uid).totalAmount =
      ((userReceiptTotals db uid).filterMap id).sum ∧
    ((userReceiptTotals db uid).filterMap id = [] →
      (getUserReceiptStats db uid).averageAmount = 0) ∧
    ((userReceiptTotals db uid).filterMap id ≠ [] →
      (getUserReceiptStats db uid).averageAmount =
        ((userReceiptTotals db uid).filterMap id).sum /
          (((userReceiptTotals db uid).filterMap id).length : ℚ)) ∧
    (userReceiptTotals db uid = [] →
      getUserReceiptStats db uid =
        { totalReceipts := 0, totalAmount := 0, averageAmount := 0 }) ∧
    ((∀ t ∈ userReceiptTotals db uid, t ≠ none) →
      userReceiptTotals db uid ≠ [] →
      (getUserReceiptStats db uid).averageAmount =
        (getUserReceiptStats db uid).totalAmount /
          ((getUserReceiptStats db uid).totalReceipts : ℚ)) := by
  refine ⟨rfl, rfl, fun hnil => ?_, fun hnn0 => ?_, fun h => ?_,
    fun hnn hne => ?_⟩
  · simp [getUserReceiptStats, hnil]
  · have hlen0 : ((userReceiptTotals db uid).filterMap id).length ≠ 0 := by
      simpa [List.length_eq_zero] using hnn0
    simp [getUserReceiptStats, hlen0]
  · simp [getUserReceiptStats, h]
  · have hlen := filterMap_id_length (userReceiptTotals db uid) hnn
    have hne0 : (userReceiptTotals db uid).length ≠ 0 := by
      simpa [List.length_eq_zero] using hne
    simp [getUserReceiptStats, hlen, hne0]

/-- Account `u0` owns receipts with totals 110 and 220. -/
def dbTotals : DB :=
  { users := [], telegram_users := [],
    receipts := [mkReceiptT "r1" (some 110) 0, mkReceiptT "r2" (some 220) 1],
    receipt_items := [],
    user_receipts := [mkLinkU0 "l1" "r1" 0, mkLinkU0 "l2" "r2" 1],
    fresh := 0, now := 10 }

/-- Witness for the amended C6, first at totals `[110, 220]` (count 2,
total 330, mean 165 = 330/2), then the general-mean clause at the mixed
store `[NULL, 30]` (mean = 30/1 over the one non-`NULL` total). -/
theorem C6_stats_semantics_witness :
    (∀ t ∈ userReceiptTotals dbTotals "u0", t ≠ none) ∧
    userReceiptTotals dbTotals "u0" ≠ [] ∧
    getUserReceiptStats dbTotals "u0" =
      { totalReceipts := 2, totalAmount := 330, averageAmount := 165 } ∧
    (getUserReceiptStats dbTotals "u0").averageAmount =
      (getUserReceiptStats dbTotals "u0").totalAmount /
        ((getUserReceiptStats dbTotals "u0").totalReceipts : ℚ) ∧
    (userReceiptTotals dbNullTotal "u0").filterMap id ≠ [] ∧
    (getUserReceiptStats dbNullTotal "u0").averageAmount =
      ((userReceiptTotals dbNullTotal "u0").filterMap id).sum /
        (((userReceiptTotals dbNullTotal "u0").filterMap id).length : ℚ) := by
  refine ⟨?_, ?_, ?_, ?_, ?_, ?_⟩
  · simp [userReceiptTotals, dbTotals, mkReceiptT, mkLinkU0, List.filter,
      List.filterMap, List.find?]
  · simp [userReceiptTotals, dbTotals, mkReceiptT, mkLinkU0, List.filter,
      List.filterMap, List.find?]
  · have : getUserReceiptStats dbTotals "u0" =
        { totalReceipts := 2, totalAmount := 330, averageAmount := 165 } := by
      simp [getUserReceiptStats, userReceiptTotals, dbTotals, mkReceiptT,
        mkLinkU0, List.filter, List.filterMap, List.find?]
      norm_num
    exact this
  · exact (C6_stats_semantics dbTotals "u0").2.2.2.2.2
      (by simp [userReceiptTotals, dbTotals, mkReceiptT, mkLinkU0,
        List.filter, List.filterMap, List.find?])
      (by simp [userReceiptTotals, dbTotals, mkReceiptT, mkLinkU0,
        List.filter, List.filterMap, List.find?])
  · simp [userReceiptTotals, dbNullTotal, mkReceiptT, mkLinkU0,
      List.filter, List.filterMap, List.find?]
  · exact (C6_stats_semantics dbNullTotal "u0").2.2.2.1
      (by simp [userReceiptTotals, dbNullTotal, mkReceiptT, mkLinkU0,
        List.filter, List.filterMap, List.find?])

/-! ### C7 -/

/-- C7: for a registered session, `/history` replies "no receipts yet" on
an empty listing; otherwise it renders exactly the first 10 entries of the
newest-link-first listing: at most 10 (exactly 10 whenever at least 10
exist, all of them when fewer exist), sorted by link-added timestamp
descending, and every rendered entry's timestamp dominates every
unrendered one's. -/
theorem C7_history_top10 (db : DB) (msg : TgMessage) (u : TelegramUser)
    (hu : findTelegramUser db (chatStr msg) = some u) :
    (getUserReceipts db u.user_id = [] →
      handleHistory msg db = (db, [.send .noReceiptsYet])) ∧
    (getUserReceipts db u.user_id ≠ [] →
      handleHistory msg db =
        (db, [.send (.historyList
          ((getUserReceipts db u.user_id).take 10))]) ∧
      (10 ≤ (getUserReceipts db u.user_id).length →
        ((getUserReceipts db u.user_id).take 10).length = 10) ∧
      ((getUserReceipts db u.user_id).length ≤ 10 →
        (getUserReceipts db u.user_id).take 10 =
          getUserReceipts db u.user_id) ∧
      List.Sorted addedGe ((getUserReceipts db u.user_id).take 10) ∧
      ∀ x ∈ (getUserReceipts db u.user_id).take 10,
        ∀ y ∈ (getUserReceipts db u.user_id).drop 10,
          y.added_at ≤ x.added_at) := by
  have hsorted : List.Sorted addedGe (getUserReceipts db u.user_id) :=
    List.sorted_insertionSort addedGe (joinUserReceipts db u.user_id)
  constructor
  · intro h
    unfold handleHistory
    simp [hu, h]
  · intro hne
    have hlen0 : ((getUserReceipts db u.user_id).length == 0) = false := by
      simp [List.length_eq_zero, hne]
    refine ⟨?_, ?_, ?_, ?_, ?_⟩
    · unfold handleHistory
      simp [hu, hlen0]
    · intro h10
      simp [List.length_take]
      omega
    · intro hle
      exact List.take_of_length_le hle
    · exact hsorted.sublist (List.take_sublist 10 _)
    · have hsplit := hsorted
      rw [← List.take_append_drop 10 (getUserReceipts db u.user_id)]
        at hsplit
      exact fun x hx y hy =>
        (List.pairwise_append.mp hsplit).2.2 x hx y hy

/-- Account `u0` owns 12 receipts, linked at timestamps 0..11. -/
def db12 : DB :=
  { users := [], telegram_users := [sessNoKey],
    receipts := (List.range 12).map
      (fun i => mkReceiptT ("r" ++ toString i) none i),
    receipt_items := [],
    user_receipts := (List.range 12).map
      (fun i => mkLinkU0 ("l" ++ toString i) ("r" ++ toString i) i),
    fresh := 0, now := 100 }

/-- Witness for C7 on an account with 12 receipts: exactly the 10 most
recently linked are rendered. -/
theorem C7_history_top10_witness :
    findTelegramUser db12 (chatStr (textMsg "/history")) = some sessNoKey ∧
    (getUserReceipts db12 "u0").length = 12 ∧
    (getUserReceipts db12 "u0") ≠ [] ∧
    handleHistory (textMsg "/history") db12 =
      (db12, [.send (.historyList ((getUserReceipts db12 "u0").take 10))]) ∧
    ((getUserReceipts db12 "u0").take 10).length = 10 := by
  have h := (C7_history_top10 db12 (textMsg "/history") sessNoKey
    (by decide)).2 (by decide)
  exact ⟨by decide, by decide, by decide, h.1, h.2.1 (by decide)⟩

/-! ### C8 -/

/-- One receipt with a lowercase-hex id, linked to account `u0`. -/
def rcptHex : Receipt := mkReceiptT "abcd1234" none 0

/-- The join row of `rcptHex` as produced by `getUserReceipts`. -/
def rowHex : UserReceiptWithDetails :=
  { receipt := rcptHex, items := [], user_receipt_id := "l1",
    added_at := 0, notes := none }

/-- Chat 1's account `u0` owns the single receipt `abcd1234`. -/
def dbHex : DB :=
  { users := [], telegram_users := [sessNoKey],
    receipts := [rcptHex], receipt_items := [],
    user_receipts := [mkLinkU0 "l1" "abcd1234" 0],
    fresh := 0, now := 5 }

/-- C8 counterexample: `/receipt_ABCD` is accepted by the dispatch pattern
(case-insensitive regex) with captured prefix `ABCD`, a linked receipt id
starts with `abcd` — the lowercase of that prefix — yet the handler replies
not-found, because `String.startsWith` compares case-sensitively. -/
theorem C8_counterexample :
    classifyMessage (textMsg "/receipt_ABCD") = .receiptDetail "ABCD" ∧
    ("ABCD".data.map Char.toLower) = "abcd".data ∧
    (∃ r ∈ getUserReceipts dbHex "u0",
      jsStartsWith r.receipt.id "abcd" = true) ∧
    (handleMessage (textMsg "/receipt_ABCD") none bridgeNone dbHex).2 =
      [.send .receiptNotFound] := by
  refine ⟨by decide, by decide, ⟨rowHex, by decide, by decide⟩, by decide⟩

/-- C8 (amended): for a registered session, `handleReceiptDetail` never
mutates the store; it replies not-found when no linked receipt's id starts
— by case-sensitive comparison — with the supplied prefix (so an
uppercase prefix, though accepted by the dispatch pattern, matches no
lowercase id); and otherwise it replies with the first receipt, in
newest-link-first order, whose id starts with the prefix. -/
theorem C8_receipt_lookup (db : DB) (msg : TgMessage) (pfx : String)
    (u : TelegramUser)
    (hu : findTelegramUser db (chatStr msg) = some u) :
    (handleReceiptDetail msg pfx db).1 = db ∧
    ((∀ r ∈ getUserReceipts db u.user_id,
        jsStartsWith r.receipt.id pfx = false) →
      (handleReceiptDetail msg pfx db).2 = [.send .receiptNotFound]) ∧
    (∀ l1 m l2, getUserReceipts db u.user_id = l1 ++ m :: l2 →
      jsStartsWith m.receipt.id pfx = true →
      (∀ r ∈ l1, jsStartsWith r.receipt.id pfx = false) →
      (handleReceiptDetail msg pfx db).2 = [.send (.receiptDetail m)]) := by
  refine ⟨?_, ?_, ?_⟩
  · unfold handleReceiptDetail
    cases hf : (getUserReceipts db u.user_id).find?
        (fun r => jsStartsWith r.receipt.id pfx) <;> simp [hu, hf]
  · intro hall
    have hf : (getUserReceipts db u.user_id).find?
        (fun r => jsStartsWith r.receipt.id pfx) = none :=
      List.find?_eq_none.mpr (fun r hr => by simp [hall r hr])
    unfold handleReceiptDetail
    simp [hu, hf]
  · intro l1 m l2 hsplit hm hprev
    have hf1 : l1.find? (fun r => jsStartsWith r.receipt.id pfx) = none :=
      List.find?_eq_none.mpr (fun r hr => by simp [hprev r hr])
    have hf : (getUserReceipts db u.user_id).find?
        (fun r => jsStartsWith r.receipt.id pfx) = some m := by
      rw [hsplit, List.find?_append, hf1, List.find?_cons_of_pos l2 hm]
      rfl
    unfold handleReceiptDetail
    simp [hu, hf]

/-- Witness for the amended C8: the lowercase prefix `abcd` finds the
receipt, and the store is unchanged. -/
theorem C8_receipt_lookup_witness :
    findTelegramUser dbHex (chatStr (textMsg "/receipt_abcd")) =
      some sessNoKey ∧
    getUserReceipts dbHex "u0" = [] ++ rowHex :: [] ∧
    jsStartsWith rowHex.receipt.id "abcd" = true ∧
    (handleReceiptDetail (textMsg "/receipt_abcd") "abcd" dbHex).2 =
      [.send (.receiptDetail rowHex)] ∧
    (handleReceiptDetail (textMsg "/receipt_abcd") "abcd" dbHex).1 =
      dbHex := by
  have h := C8_receipt_lookup dbHex (textMsg "/receipt_abcd") "abcd"
    sessNoKey (by decide)
  exact ⟨by decide, by decide, by decide,
    h.2.2 [] rowHex [] (by decide) (by decide) (by decide), h.1⟩

/-! ### C9 -/

/-- Membership in the newest-first listing, unfolded to the join it orders:
a row comes from an ownership link of the account whose receipt resolves in
the `receipts` table. -/
theorem mem_getUserReceipts {db : DB} {uid : String}
    {x : UserReceiptWithDetails} :
    x ∈ getUserReceipts db uid ↔
      ∃ l ∈ db.user_receipts, (l.user_id == uid) = true ∧
        ∃ r, db.receipts.find? (fun r2 => r2.id == l.receipt_id) = some r ∧
          x = { receipt := r, items := getReceiptItems db r.id,
                user_receipt_id := l.id, added_at := l.added_at,
                notes := l.notes } := by
  unfold getUserReceipts joinUserReceipts
  rw [List.mem_insertionSort, List.mem_filterMap]
  constructor
  · rintro ⟨l, hl, hf⟩
    rw [List.mem_filter] at hl
    rw [Option.map_eq_some'] at hf
    obtain ⟨r, hfind, hgx⟩ := hf
    exact ⟨l, hl.1, hl.2, r, hfind, hgx.symm⟩
  · rintro ⟨l, hl, huid, r, hfind, hx⟩
    refine ⟨l, List.mem_filter.mpr ⟨hl, huid⟩, ?_⟩
    rw [Option.map_eq_some']
    exact ⟨r, hfind, hx.symm⟩

/-- After unlink-then-delete of the only prefix match, no remaining listed
receipt of the account matches the prefix. -/
theorem no_match_after_delete (db : DB) (uid idPfx : String)
    (m : UserReceiptWithDetails)
    (huniq : ∀ r ∈ getUserReceipts db uid,
      jsStartsWith r.receipt.id idPfx = true →
        r.receipt.id = m.receipt.id) :
    ∀ x ∈ getUserReceipts
        ((deleteReceipt ((unlinkReceiptFromUser db uid m.receipt.id).2)
          m.receipt.id).2) uid,
      jsStartsWith x.receipt.id idPfx = false := by
  intro x hx
  rw [mem_getUserReceipts] at hx
  obtain ⟨l, hl, huid2, r, hfind, hxeq⟩ := hx
  have hrmem := List.mem_of_find?_eq_some hfind
  have hrid0 := List.find?_some hfind
  have hrid : (r.id == l.receipt_id) = true := by simpa using hrid0
  simp only [deleteReceipt, unlinkReceiptFromUser, List.mem_filter] at hl hrmem
  -- r survives the cascade filter, so r.id ≠ m.receipt.id
  have hrne : r.id ≠ m.receipt.id := by
    have := hrmem.2
    simpa using this
  by_contra hstart
  have hstart' : jsStartsWith x.receipt.id idPfx = true := by
    simpa using hstart
  -- rebuild the corresponding row of the original listing
  have hl0 : l ∈ db.user_receipts := hl.1.1
  obtain ⟨r', hfind'⟩ : ∃ r', db.receipts.find?
      (fun r2 => r2.id == l.receipt_id) = some r' := by
    cases hf0 : db.receipts.find? (fun r2 => r2.id == l.receipt_id) with
    | some y => exact ⟨y, rfl⟩
    | none =>
      rw [List.find?_eq_none] at hf0
      exact absurd hrid (hf0 r hrmem.1)
  have hr'id0 := List.find?_some hfind'
  have hr'id : (r'.id == l.receipt_id) = true := by simpa using hr'id0
  have hsame : r'.id = r.id := by
    have h1 : r'.id = l.receipt_id := by simpa using hr'id
    have h2 : r.id = l.receipt_id := by simpa using hrid
    rw [h1, h2]
  have hx' : ({ receipt := r',
                items := getReceiptItems db r'.id,
                user_receipt_id := l.id,
                added_at := l.added_at,
                notes := l.notes } :
        UserReceiptWithDetails) ∈ getUserReceipts db uid :=
    mem_getUserReceipts.mpr ⟨l, hl0, huid2, r', hfind', rfl⟩
  have hstartr : jsStartsWith r.id idPfx = true := by
    rw [hxeq] at hstart'
    exact hstart'
  have := huniq _ hx' (by simpa [hsame] using hstartr)
  simp only at this
  exact hrne (hsame ▸ this)

/-- The reduced form of `handleDelete` when the session exists, a second
token is present, and the prefix scan finds a receipt. -/
theorem handleDelete_found (db : DB) (msg : TgMessage) (u : TelegramUser)
    (a idPfx : String) (rest2 : List String) (m : UserReceiptWithDetails)
    (hu : findTelegramUser db (chatStr msg) = some u)
    (hsplit : jsSplitWs (jsText msg) = a :: idPfx :: rest2)
    (hfind : (getUserReceipts db u.user_id).find?
      (fun r => jsStartsWith r.receipt.id idPfx) = some m) :
    handleDelete msg db =
      ((deleteReceipt ((unlinkReceiptFromUser db u.user_id
          m.receipt.id).2) m.receipt.id).2,
       [.send (.deleted (m.receipt.id.take 8))]) := by
  unfold handleDelete
  simp only [hu, hsplit, hfind]

/-- Unlink-then-delete leaves no receipt row and no ownership link carrying
the deleted id, and does not touch the session table. -/
theorem delete_gone (db : DB) (uid rid : String) :
    (∀ r ∈ (deleteReceipt ((unlinkReceiptFromUser db uid rid).2)
        rid).2.receipts, r.id ≠ rid) ∧
    (∀ l ∈ (deleteReceipt ((unlinkReceiptFromUser db uid rid).2)
        rid).2.user_receipts, l.receipt_id ≠ rid) ∧
    (deleteReceipt ((unlinkReceiptFromUser db uid rid).2)
        rid).2.telegram_users = db.telegram_users := by
  refine ⟨?_, ?_, rfl⟩
  · intro r hr
    simp only [deleteReceipt, unlinkReceiptFromUser, List.mem_filter]
      at hr
    simpa using hr.2
  · intro l hl
    simp only [deleteReceipt, unlinkReceiptFromUser, List.mem_filter]
      at hl
    simpa using hl.2

/-- C9 (amended): for a registered session and a supplied prefix matched by
the scan, `handleDelete` removes the ownership link and then the receipt
row (the cascade also removes every other link of that row), confirms with
the 8-character id, and — provided the prefix matched no other listed
receipt — a subsequent `/receipt` lookup with the same prefix replies
not-found. -/
theorem C9_delete_removes (db : DB) (msg : TgMessage) (u : TelegramUser)
    (a idPfx : String) (rest2 : List String) (m : UserReceiptWithDetails)
    (hu : findTelegramUser db (chatStr msg) = some u)
    (hsplit : jsSplitWs (jsText msg) = a :: idPfx :: rest2)
    (hfind : (getUserReceipts db u.user_id).find?
      (fun r => jsStartsWith r.receipt.id idPfx) = some m)
    (huniq : ∀ r ∈ getUserReceipts db u.user_id,
      jsStartsWith r.receipt.id idPfx = true →
        r.receipt.id = m.receipt.id) :
    (handleDelete msg db).2 = [.send (.deleted (m.receipt.id.take 8))] ∧
    (∀ r ∈ (handleDelete msg db).1.receipts, r.id ≠ m.receipt.id) ∧
    (∀ l ∈ (handleDelete msg db).1.user_receipts,
      l.receipt_id ≠ m.receipt.id) ∧
    (handleReceiptDetail msg idPfx (handleDelete msg db).1).2 =
      [.send .receiptNotFound] := by
  have hmain := handleDelete_found db msg u a idPfx rest2 m hu hsplit hfind
  have hg := delete_gone db u.user_id m.receipt.id
  have hsess : findTelegramUser (handleDelete msg db).1 (chatStr msg) =
      some u := by
    rw [hmain]
    unfold findTelegramUser
    rw [hg.2.2]
    exact hu
  have hnone : (getUserReceipts (handleDelete msg db).1 u.user_id).find?
      (fun r => jsStartsWith r.receipt.id idPfx) = none := by
    rw [hmain]
    exact List.find?_eq_none.mpr (fun x hx => by
      simp [no_match_after_delete db u.user_id idPfx m huniq x hx])
  refine ⟨by rw [hmain], ?_, ?_, ?_⟩
  · rw [hmain]
    exact hg.1
  · rw [hmain]
    exact hg.2.1
  · unfold handleReceiptDetail
    simp only [hsess, hnone]

/-- Account `u0` owns two receipts whose ids share the prefix `aa`;
`aabb2222` is the more recently linked. -/
def dbShared : DB :=
  { users := [], telegram_users := [sessNoKey],
    receipts := [mkReceiptT "aaaa1111" none 0, mkReceiptT "aabb2222" none 1],
    receipt_items := [],
    user_receipts := [mkLinkU0 "l1" "aaaa1111" 0, mkLinkU0 "l2" "aabb2222" 1],
    fresh := 0, now := 9 }

/-- The join row of `aaaa1111` surviving the delete below. -/
def rowASurvivor : UserReceiptWithDetails :=
  { receipt := mkReceiptT "aaaa1111" none 0, items := [],
    user_receipt_id := "l1", added_at := 0, notes := none }

/-- C9 counterexample: both ids start with `aa`; `/delete aa` removes the
newest match `aabb2222`, and the subsequent `/receipt` lookup with the same
prefix `aa` finds the surviving `aaaa1111` instead of replying
not-found. -/
theorem C9_counterexample :
    jsStartsWith "aaaa1111" "aa" = true ∧
    jsStartsWith "aabb2222" "aa" = true ∧
    (handleDelete (textMsg "/delete aa") dbShared).2 =
      [.send (.deleted "aabb2222")] ∧
    (handleReceiptDetail (textMsg "/receipt_aa") "aa"
        (handleDelete (textMsg "/delete aa") dbShared).1).2 =
      [.send (.receiptDetail rowASurvivor)] ∧
    (handleReceiptDetail (textMsg "/receipt_aa") "aa"
        (handleDelete (textMsg "/delete aa") dbShared).1).2 ≠
      [.send .receiptNotFound] := by
  refine ⟨by decide, by decide, by decide, by decide, by decide⟩

/-- Account `u0` owns two receipts with disjoint id prefixes. -/
def dbTwo : DB :=
  { users := [], telegram_users := [sessNoKey],
    receipts := [mkReceiptT "aaaa1111" none 0, mkReceiptT "bbbb2222" none 1],
    receipt_items := [],
    user_receipts := [mkLinkU0 "l1" "aaaa1111" 0, mkLinkU0 "l2" "bbbb2222" 1],
    fresh := 0, now := 9 }

/-- The join row of `aaaa1111` in `dbTwo`. -/
def rowA : UserReceiptWithDetails :=
  { receipt := mkReceiptT "aaaa1111" none 0, items := [],
    user_receipt_id := "l1", added_at := 0, notes := none }

/-- Witness for the amended C9: deleting by the unambiguous prefix `aaaa`
removes receipt and link, and the follow-up lookup is not-found. -/
theorem C9_delete_removes_witness :
    findTelegramUser dbTwo (chatStr (textMsg "/delete aaaa")) =
      some sessNoKey ∧
    jsSplitWs (jsText (textMsg "/delete aaaa")) = ["/delete", "aaaa"] ∧
    (getUserReceipts dbTwo "u0").find?
      (fun r => jsStartsWith r.receipt.id "aaaa") = some rowA ∧
    (handleDelete (textMsg "/delete aaaa") dbTwo).2 =
      [.send (.deleted (rowA.receipt.id.take 8))] ∧
    (∀ r ∈ (handleDelete (textMsg "/delete aaaa") dbTwo).1.receipts,
      r.id ≠ rowA.receipt.id) ∧
    (handleReceiptDetail (textMsg "/delete aaaa") "aaaa"
        (handleDelete (textMsg "/delete aaaa") dbTwo).1).2 =
      [.send .receiptNotFound] := by
  have h := C9_delete_removes dbTwo (textMsg "/delete aaaa") sessNoKey
    "/delete" "aaaa" [] rowA (by decide) (by decide) (by decide) (by decide)
  exact ⟨by decide, by decide, by decide, h.1, h.2.1, h.2.2.2⟩

/-! ### C10 -/

/-- Every string starts with the empty prefix. -/
theorem strHasPre_nil (s : List Char) : strHasPre s [] = true := by
  cases s <;> rfl

/-- Every id starts with the empty id-prefix. -/
theorem jsStartsWith_empty (s : String) : jsStartsWith s "" = true :=
  strHasPre_nil s.data

/-- C10: for a registered session with at least one listed receipt, a
message whose text is `/delete` followed only by (nonempty) whitespace
splits to `["/delete", ""]` — so `parts.length < 2` does not fire and the
id-prefix is the empty string — and since every id starts with `""`, the
first receipt in newest-link-first order is matched and deleted (receipt
row and ownership links gone), rather than a usage-error or not-found
reply. -/
theorem C10_delete_blank_whitespace (db : DB) (msg : TgMessage)
    (u : TelegramUser) (w : String) (m : UserReceiptWithDetails)
    (rest : List UserReceiptWithDetails)
    (hu : findTelegramUser db (chatStr msg) = some u)
    (htext : msg.text = some ("/delete" ++ w))
    (hne : w.data ≠ [])
    (hws : ∀ c ∈ w.data, isWs c = true)
    (hrs : getUserReceipts db u.user_id = m :: rest) :
    jsSplitWs (jsText msg) = ["/delete", ""] ∧
    (handleDelete msg db).2 = [.send (.deleted (m.receipt.id.take 8))] ∧
    (∀ r ∈ (handleDelete msg db).1.receipts, r.id ≠ m.receipt.id) ∧
    (∀ l ∈ (handleDelete msg db).1.user_receipts,
      l.receipt_id ≠ m.receipt.id) := by
  have hjs : jsText msg = "/delete" ++ w := by simp [jsText, htext]
  have hdata : (jsText msg).data =
      '/' :: 'd' :: 'e' :: 'l' :: 'e' :: 't' :: 'e' :: w.data := by
    rw [hjs, String.data_append]
    rfl
  have hsplit : jsSplitWs (jsText msg) = ["/delete", ""] := by
    unfold jsSplitWs
    rw [hdata]
    have h1 := splitWsGo_allws w.data hne hws
    have c1 : isWs '/' = false := by decide
    have c2 : isWs 'd' = false := by decide
    have c3 : isWs 'e' = false := by decide
    have c4 : isWs 'l' = false := by decide
    have c5 : isWs 't' = false := by decide
    simp [splitWsGo_nonws_cons, c1, c2, c3, c4, c5, h1]
  have hfind : (getUserReceipts db u.user_id).find?
      (fun r => jsStartsWith r.receipt.id "") = some m := by
    rw [hrs]
    exact List.find?_cons_of_pos rest (jsStartsWith_empty _)
  have hmain := handleDelete_found db msg u "/delete" "" [] m hu hsplit hfind
  have hg := delete_gone db u.user_id m.receipt.id
  exact ⟨hsplit, by rw [hmain], by rw [hmain]; exact hg.1,
    by rw [hmain]; exact hg.2.1⟩

/-- Witness for C10 at the concrete text `/delete ` (one trailing blank) on
an account owning one receipt: the receipt is deleted. -/
theorem C10_delete_blank_whitespace_witness :
    findTelegramUser dbHex (chatStr (textMsg "/delete ")) =
      some sessNoKey ∧
    (textMsg "/delete ").text = some ("/delete" ++ " ") ∧
    " ".data ≠ [] ∧ (∀ c ∈ " ".data, isWs c = true) ∧
    getUserReceipts dbHex "u0" = rowHex :: [] ∧
    jsSplitWs (jsText (textMsg "/delete ")) = ["/delete", ""] ∧
    (handleDelete (textMsg "/delete ") dbHex).2 =
      [.send (.deleted (rowHex.receipt.id.take 8))] ∧
    ∀ r ∈ (handleDelete (textMsg "/delete ") dbHex).1.receipts,
      r.id ≠ rowHex.receipt.id := by
  have h := C10_delete_blank_whitespace dbHex (textMsg "/delete ")
    sessNoKey " " rowHex [] (by decide) (by decide) (by decide) (by decide)
    (by decide)
  exact ⟨by decide, by decide, by decide, by decide, by decide,
    h.1, h.2.1, h.2.2.1⟩
